import Mathlib

/-!
Verification development for the circuity-factor service.

The embedding mirrors the Python sources:
 - `DistanceService` (app/services/distance_service.py): the Haversine
   straight-line distance, the OSRM road-distance client, and the circuity
   composition.
 - `CacheService` (app/services/cache_service.py): direction-symmetric cache
   lookup, record persistence, history and aggregate statistics.
 - the `/calculate` and `/history` endpoints (app/routers/circuity.py) as far
   as error wrapping is concerned.

Numeric modelling: Python floats are modelled as exact rationals (the claims
under check are about the relationships the code establishes, every one of
which uses the same arithmetic on both sides, so exact arithmetic is
faithful); `round(x, n)` is modelled as nearest-integer rounding at `n`
decimal digits.  Python exceptions are modelled as an explicit error value
carrying the exception class name and its message, since the sources raise
bare `Exception(...)` objects distinguished only by message text.
-/

/-- The request units, `Literal["miles", "km"]` in app/models.py. -/
inductive DistanceUnits where
  | miles
  | km
deriving DecidableEq

/-- Python `round(x, n)` on the exact-rational model: round to `n` decimal
places. -/
def roundTo (n : ℕ) (x : ℚ) : ℚ := (round (x * 10 ^ n) : ℤ) / 10 ^ n

/-- A raised Python exception: the exception class and the message `str(e)`.
The sources raise only the generic `Exception` class (and `ZeroDivisionError`
implicitly, from unguarded division). -/
structure PyError where
  className : String
  message : String
deriving DecidableEq

namespace DistanceService

/-- The observable outcome of the single HTTP request
`calculate_road_distance` issues to OSRM: either the request itself fails
(connection error, timeout, or HTTP error status — all surfaced by the
`requests` library as a `RequestException`), or a JSON body arrives with a
`code`, an optional `message`, and a list of routes, each carrying its
distance in meters. -/
inductive RoutingOutcome where
  | networkError (msg : String)
  | response (code : String) (message : Option String) (routes : List ℚ)

/-- `DistanceService.calculate_road_distance`
(app/services/distance_service.py lines 38-69), given the outcome of the
OSRM request.  A `RequestException` is re-raised as
`Exception("OSRM connection error: ...")`; the in-body failures
(`code != "Ok"`, empty route list) raise inside the `try` block and are
re-wrapped by the trailing `except Exception` handler into
`Exception("Road distance calculation failed: ...")`.  On success the first
route distance is converted from meters and rounded to 2 decimals. -/
def calculate_road_distance (outcome : RoutingOutcome) (units : DistanceUnits) :
    Except PyError ℚ :=
  match outcome with
  | .networkError msg =>
      .error ⟨"Exception", "OSRM connection error: " ++ msg⟩
  | .response code message routes =>
      if code ≠ "Ok" then
        .error ⟨"Exception",
          "Road distance calculation failed: OSRM error: " ++
            message.getD "Unknown error"⟩
      else
        match routes with
        | [] => .error ⟨"Exception",
            "Road distance calculation failed: No routes found"⟩
        | d :: _ =>
            let distance_km := d / 1000
            let distance :=
              match units with
              | .miles => distance_km * 0.621371
              | .km => distance_km
            .ok (roundTo 2 distance)

/-- The result tuple of `DistanceService.calculate_circuity`, without the
wall-clock `calculation_time_ms` component (real time is not modelled). -/
structure CircuityResult where
  road_distance : ℚ
  straight_distance : ℚ
  circuity_factor : ℚ
  efficiency_percent : ℚ
deriving DecidableEq

/-- The division part of `DistanceService.calculate_circuity`
(app/services/distance_service.py lines 71-86), taking the two already
2-decimal-rounded sub-results as arguments: `straight_distance` from the
Haversine calculator and `road_distance` from the routing client.  The code
guards neither division: `circuity_factor = round(road/straight, 3)` first
raises `ZeroDivisionError` when `straight_distance == 0`, then
`efficiency_percent = round(straight/road*100, 2)` raises when
`road_distance == 0`. -/
def calculate_circuity (straight_distance road_distance : ℚ) :
    Except PyError CircuityResult :=
  if straight_distance = 0 then
    .error ⟨"ZeroDivisionError", "float division by zero"⟩
  else if road_distance = 0 then
    .error ⟨"ZeroDivisionError", "float division by zero"⟩
  else
    .ok { road_distance := road_distance
          straight_distance := straight_distance
          circuity_factor := roundTo 3 (road_distance / straight_distance)
          efficiency_percent :=
            roundTo 2 (straight_distance / road_distance * 100) }

/-- `DistanceService.calculate_circuity` end to end, given the straight-line
sub-result and the routing outcome: the road-distance call runs after the
straight-distance computation, and an exception it raises propagates
unchanged out of `calculate_circuity` (there is no handler in it). -/
def calculate_circuity_of_outcome (straight_distance : ℚ)
    (outcome : RoutingOutcome) (units : DistanceUnits) : Except PyError CircuityResult :=
  match calculate_road_distance outcome units with
  | .error e => .error e
  | .ok road_distance => calculate_circuity straight_distance road_distance

end DistanceService

namespace DistanceService

/-- Python `math.radians(x) = x * pi / 180`. -/
noncomputable def radians (x : ℝ) : ℝ := x * Real.pi / 180

/-- Python `math.atan2(y, x)`: the two-argument arctangent. -/
noncomputable def atan2 (y x : ℝ) : ℝ :=
  if 0 < x then Real.arctan (y / x)
  else if x < 0 ∧ 0 ≤ y then Real.arctan (y / x) + Real.pi
  else if x < 0 ∧ y < 0 then Real.arctan (y / x) - Real.pi
  else if x = 0 ∧ 0 < y then Real.pi / 2
  else if x = 0 ∧ y < 0 then -(Real.pi / 2)
  else 0

/-- Python `round(x, n)` on the real-number model of float arithmetic, for
the Haversine path whose trigonometry is transcendental. -/
noncomputable def roundReal (n : ℕ) (x : ℝ) : ℝ := (round (x * 10 ^ n) : ℤ) / 10 ^ n

/-- `DistanceService.calculate_straight_distance`
(app/services/distance_service.py lines 17-36): the Haversine formula with
Earth radius 3959 miles or 6371 kilometers, rounded to 2 decimals. -/
noncomputable def calculate_straight_distance
    (lat1 lng1 lat2 lng2 : ℝ) (units : DistanceUnits) : ℝ :=
  let R : ℝ := if units = DistanceUnits.miles then 3959 else 6371
  let lat1_rad := radians lat1
  let lat2_rad := radians lat2
  let dlat := radians (lat2 - lat1)
  let dlng := radians (lng2 - lng1)
  let a := Real.sin (dlat / 2) * Real.sin (dlat / 2) +
    Real.cos lat1_rad * Real.cos lat2_rad *
      Real.sin (dlng / 2) * Real.sin (dlng / 2)
  let c := 2 * atan2 (Real.sqrt a) (Real.sqrt (1 - a))
  let distance := R * c
  roundReal 2 distance

end DistanceService

/-- The `except Exception` handler of the `/calculate` endpoint
(app/routers/circuity.py lines 55-59): every exception is caught and
surfaced as an HTTP 500 whose detail prefixes the message with
`"Calculation failed: "`. -/
def calculate_endpoint_failure (e : PyError) : ℕ × String :=
  (500, "Calculation failed: " ++ e.message)

/-- A `Location` (app/models.py): validated coordinates plus an optional
cosmetic name. -/
structure Location where
  lat : ℚ
  lng : ℚ
  name : Option String
deriving DecidableEq

/-- A `CircuityRequest` (app/models.py). -/
structure CircuityRequest where
  origin : Location
  destination : Location
  units : DistanceUnits
deriving DecidableEq

/-- A `CircuityResponse` (app/models.py). -/
structure CircuityResponse where
  origin : Location
  destination : Location
  road_distance : ℚ
  straight_distance : ℚ
  circuity_factor : ℚ
  efficiency_percent : ℚ
  units : DistanceUnits
  calculation_time_ms : ℤ
  cached : Bool
deriving DecidableEq

/-- A persisted `CircuityCalculation` row (app/database.py).  The `id`
primary key is not modelled (no claim depends on it); `created_at`, assigned
by the store at insert time, is modelled as a natural-number timestamp. -/
structure CircuityCalculation where
  origin_lat : ℚ
  origin_lng : ℚ
  origin_name : Option String
  destination_lat : ℚ
  destination_lng : ℚ
  destination_name : Option String
  road_distance : ℚ
  straight_distance : ℚ
  circuity_factor : ℚ
  efficiency_percent : ℚ
  units : DistanceUnits
  calculation_time_ms : ℤ
  created_at : ℕ
deriving DecidableEq

namespace CacheService

/-- The coordinate rounding used throughout the cache layer: 6 decimal
places. -/
def round6 (x : ℚ) : ℚ := roundTo 6 x

/-- The first (forward) filter of `CacheService.get_cached_calculation`:
stored origin and destination match the rounded request origin and
destination, with equal units. -/
def matches_forward (request : CircuityRequest) (row : CircuityCalculation) :
    Bool :=
  decide (row.origin_lat = round6 request.origin.lat ∧
    row.origin_lng = round6 request.origin.lng ∧
    row.destination_lat = round6 request.destination.lat ∧
    row.destination_lng = round6 request.destination.lng ∧
    row.units = request.units)

/-- The second (reverse) filter of `CacheService.get_cached_calculation`:
stored origin matches the rounded request destination and vice versa, with
equal units. -/
def matches_reverse (request : CircuityRequest) (row : CircuityCalculation) :
    Bool :=
  decide (row.origin_lat = round6 request.destination.lat ∧
    row.origin_lng = round6 request.destination.lng ∧
    row.destination_lat = round6 request.origin.lat ∧
    row.destination_lng = round6 request.origin.lng ∧
    row.units = request.units)

/-- `CacheService.get_cached_calculation`
(app/services/cache_service.py lines 23-57).  The store is modelled as the
list of persisted rows in insertion order; `.first()` is the first matching
row.  The forward-direction query runs first; only if it finds nothing is
the reverse-direction query attempted.  On a hit the response echoes the
requesting call's own origin and destination, copies the numeric fields and
units from the matched row, and sets `cached=True`. -/
def get_cached_calculation (db : List CircuityCalculation)
    (request : CircuityRequest) : Option CircuityResponse :=
  let row :=
    match db.find? (matches_forward request) with
    | some c => some c
    | none => db.find? (matches_reverse request)
  row.map fun c =>
    { origin := request.origin
      destination := request.destination
      road_distance := c.road_distance
      straight_distance := c.straight_distance
      circuity_factor := c.circuity_factor
      efficiency_percent := c.efficiency_percent
      units := c.units
      calculation_time_ms := c.calculation_time_ms
      cached := true }

/-- `CacheService.save_calculation`
(app/services/cache_service.py lines 59-80): append one immutable row with
6-decimal-rounded coordinates; `now` is the insert-time timestamp the store
assigns to `created_at`. -/
def save_calculation (db : List CircuityCalculation)
    (request : CircuityRequest) (response : CircuityResponse) (now : ℕ) :
    List CircuityCalculation :=
  db ++ [{ origin_lat := round6 request.origin.lat
           origin_lng := round6 request.origin.lng
           origin_name := request.origin.name
           destination_lat := round6 request.destination.lat
           destination_lng := round6 request.destination.lng
           destination_name := request.destination.name
           road_distance := response.road_distance
           straight_distance := response.straight_distance
           circuity_factor := response.circuity_factor
           efficiency_percent := response.efficiency_percent
           units := response.units
           calculation_time_ms := response.calculation_time_ms
           created_at := now }]

/-- The aggregate-statistics record returned by
`CacheService.get_calculation_stats`. -/
structure StatsResult where
  total_calculations : ℕ
  average_circuity_factor : ℚ
  average_efficiency_percent : ℚ
deriving DecidableEq

/-- `CacheService.get_calculation_stats`
(app/services/cache_service.py lines 92-119): the row count, and when it is
nonzero the SQL `AVG` of `circuity_factor` rounded to 3 decimals and of
`efficiency_percent` rounded to 2 decimals; an empty store short-circuits to
all-zero values. -/
def get_calculation_stats (db : List CircuityCalculation) : StatsResult :=
  let total_calculations := db.length
  if total_calculations = 0 then
    { total_calculations := 0
      average_circuity_factor := 0
      average_efficiency_percent := 0 }
  else
    let avg_circuity := (db.map (·.circuity_factor)).sum / total_calculations
    let avg_efficiency :=
      (db.map (·.efficiency_percent)).sum / total_calculations
    { total_calculations := total_calculations
      average_circuity_factor := roundTo 3 avg_circuity
      average_efficiency_percent := roundTo 2 avg_efficiency }

end CacheService

namespace CacheService

/-- Insert into a list sorted by the boolean order `le` (stable). -/
def insertSorted {α : Type} (le : α → α → Bool) (x : α) :
    List α → List α
  | [] => [x]
  | y :: ys => if le x y then x :: y :: ys else y :: insertSorted le x ys

/-- Stable insertion sort by the boolean order `le`, modelling an SQL
`ORDER BY` over the stored rows. -/
def sortRows {α : Type} (le : α → α → Bool) : List α → List α
  | [] => []
  | x :: xs => insertSorted le x (sortRows le xs)

/-- `CacheService.get_calculation_history`
(app/services/cache_service.py lines 82-90): the stored rows ordered by
`created_at` descending, limited to `limit`. -/
def get_calculation_history (db : List CircuityCalculation)
    (limit : ℕ := 50) : List CircuityCalculation :=
  (sortRows (fun a b => decide (b.created_at ≤ a.created_at)) db).take limit

/-- Case-insensitive substring match of `term` against an optional name
field, modelling SQL `ILIKE` with surrounding wildcards. -/
def contains_ci (field : Option String) (term : String) : Bool :=
  decide (2 ≤ ((field.getD "").toLower.splitOn term.toLower).length)

/-- Modelled from the spec: `CacheService.get_calculation_history_paginated`
is invoked by the `/history` endpoint (app/routers/circuity.py lines 73-75)
but its definition is absent from the source files under review; this
definition follows section 4.4 of the specification.  `listHistory(page,
limit, search, sortBy)`: `sortBy` must be one of `newest`, `oldest`,
`circuity_asc`, `circuity_desc` (selecting `created_at` descending,
`created_at` ascending, `circuity_factor` ascending, `circuity_factor`
descending); an unrecognized value is rejected as invalid input, never
silently defaulted.  `search`, when present and nonempty, keeps rows whose
origin name or destination name contains the term case-insensitively;
pagination is 1-based and the pre-pagination match count is returned
alongside the page. -/
def get_calculation_history_paginated (db : List CircuityCalculation)
    (page limit : ℕ) (search : Option String) (sort_by : String) :
    Except PyError (List CircuityCalculation × ℕ) :=
  if sort_by ≠ "newest" ∧ sort_by ≠ "oldest" ∧
      sort_by ≠ "circuity_asc" ∧ sort_by ≠ "circuity_desc" then
    .error ⟨"ValueError", "Invalid sortBy value: " ++ sort_by⟩
  else
    let filtered :=
      match search with
      | none => db
      | some term =>
          if term = "" then db
          else db.filter fun row =>
            contains_ci row.origin_name term ||
              contains_ci row.destination_name term
    let sorted :=
      if sort_by = "newest" then
        sortRows (fun a b => decide (b.created_at ≤ a.created_at)) filtered
      else if sort_by = "oldest" then
        sortRows (fun a b => decide (a.created_at ≤ b.created_at)) filtered
      else if sort_by = "circuity_asc" then
        sortRows (fun a b => decide (a.circuity_factor ≤ b.circuity_factor))
          filtered
      else
        sortRows (fun a b => decide (b.circuity_factor ≤ a.circuity_factor))
          filtered
    .ok ((sorted.drop ((page - 1) * limit)).take limit, filtered.length)

end CacheService

open DistanceService CacheService in
/-- C2: for every pair of positive (already 2-decimal-rounded) sub-results,
`calculate_circuity` succeeds and returns `circuity_factor =
round(road_distance / straight_distance, 3)` and `efficiency_percent =
round(straight_distance / road_distance * 100, 2)`. -/
theorem c2_circuity_factor_invariants (straight road : ℚ)
    (hs : 0 < straight) (hr : 0 < road) :
    DistanceService.calculate_circuity straight road =
      .ok { road_distance := road
            straight_distance := straight
            circuity_factor := roundTo 3 (road / straight)
            efficiency_percent := roundTo 2 (straight / road * 100) } := by
  unfold DistanceService.calculate_circuity
  rw [if_neg (ne_of_gt hs), if_neg (ne_of_gt hr)]

/-- Witness for C2 at straight = 8.3, road = 10.5. -/
theorem c2_circuity_factor_invariants_witness :
    (0 : ℚ) < 8.3 ∧ (0 : ℚ) < 10.5 ∧
    DistanceService.calculate_circuity 8.3 10.5 =
      .ok { road_distance := 10.5
            straight_distance := 8.3
            circuity_factor := roundTo 3 (10.5 / 8.3)
            efficiency_percent := roundTo 2 (8.3 / 10.5 * 100) } :=
  ⟨by norm_num, by norm_num,
    c2_circuity_factor_invariants 8.3 10.5 (by norm_num) (by norm_num)⟩

/-- C4: a successful routing response of `d` meters converts with the exact
factor 0.000621371 for miles and 0.001 for kilometers, rounded to 2
decimals. -/
theorem c4_road_distance_unit_conversion (d : ℚ) (rest : List ℚ)
    (message : Option String) (units : DistanceUnits) :
    DistanceService.calculate_road_distance
        (.response "Ok" message (d :: rest)) units =
      .ok (roundTo 2 (d *
        (if units = DistanceUnits.miles then 0.000621371 else 0.001))) := by
  unfold DistanceService.calculate_road_distance
  cases units <;> simp <;> norm_num [roundTo] <;> ring_nf

/-- C6: neither division in `calculate_circuity` is guarded: a zero
`straight_distance` (as the Haversine calculator returns for identical
origin and destination) or a zero `road_distance` makes the call raise a
`ZeroDivisionError` instead of returning a result. -/
theorem c6_zero_distance_division_error (straight road : ℚ)
    (h : straight = 0 ∨ road = 0) :
    DistanceService.calculate_circuity straight road =
      .error ⟨"ZeroDivisionError", "float division by zero"⟩ := by
  unfold DistanceService.calculate_circuity
  rcases h with h | h
  · rw [if_pos h]
  · rcases eq_or_ne straight 0 with hs | hs
    · rw [if_pos hs]
    · rw [if_neg hs, if_pos h]

/-- Witness for C6 at straight = 0, road = 5. -/
theorem c6_zero_distance_division_error_witness :
    ((0 : ℚ) = 0 ∨ (5 : ℚ) = 0) ∧
    DistanceService.calculate_circuity 0 5 =
      .error ⟨"ZeroDivisionError", "float division by zero"⟩ :=
  ⟨Or.inl rfl, c6_zero_distance_division_error 0 5 (Or.inl rfl)⟩

/-- C3 counterexample: when the routing service responds `Ok` with an empty
route list, the exception the code raises is the generic Python `Exception`
class (message `"Road distance calculation failed: No routes found"`), not a
distinct `NoRouteFound` error type. -/
theorem c3_no_distinct_error_types_counterexample :
    DistanceService.calculate_road_distance
        (.response "Ok" none []) DistanceUnits.miles =
      .error ⟨"Exception",
        "Road distance calculation failed: No routes found"⟩ ∧
    "Exception" ≠ "NoRouteFound" := by
  constructor
  · rfl
  · decide

/-- C3 amended: all three failure modes raise the single generic `Exception`
class, distinguished only by message text — network/timeout gives
`"OSRM connection error: ..."`, an application-level error code gives
`"Road distance calculation failed: OSRM error: <upstream message>"`, and an
empty route list gives
`"Road distance calculation failed: No routes found"`; the raised error
passes unchanged through `calculate_circuity`, and the endpoint handler
surfaces it as a 500 whose detail wraps the message in
`"Calculation failed: ..."`. -/
theorem c3_error_channel_amended :
    (∀ m u, DistanceService.calculate_road_distance (.networkError m) u =
      .error ⟨"Exception", "OSRM connection error: " ++ m⟩) ∧
    (∀ code m routes u, code ≠ "Ok" →
      DistanceService.calculate_road_distance (.response code m routes) u =
        .error ⟨"Exception",
          "Road distance calculation failed: OSRM error: " ++
            m.getD "Unknown error"⟩) ∧
    (∀ m u, DistanceService.calculate_road_distance (.response "Ok" m []) u =
      .error ⟨"Exception",
        "Road distance calculation failed: No routes found"⟩) ∧
    (∀ straight outcome u e,
      DistanceService.calculate_road_distance outcome u = .error e →
      DistanceService.calculate_circuity_of_outcome straight outcome u =
        .error e) ∧
    (∀ e, calculate_endpoint_failure e =
      (500, "Calculation failed: " ++ e.message)) := by
  refine ⟨fun m u => rfl, fun code m routes u hcode => ?_, fun m u => ?_,
    fun straight outcome u e herr => ?_, fun e => rfl⟩
  · unfold DistanceService.calculate_road_distance
    dsimp only
    rw [if_pos hcode]
  · unfold DistanceService.calculate_road_distance
    simp
  · unfold DistanceService.calculate_circuity_of_outcome
    rw [herr]

/-- Witness for C3 amended: the error-code case at code `"Error"` with
upstream message `"no segment"`, and propagation of a network failure
through the engine composition. -/
theorem c3_error_channel_amended_witness :
    DistanceService.calculate_road_distance
        (.response "Error" (some "no segment") []) DistanceUnits.miles =
      .error ⟨"Exception",
        "Road distance calculation failed: OSRM error: no segment"⟩ ∧
    DistanceService.calculate_circuity_of_outcome 8.3
        (.networkError "timeout") DistanceUnits.miles =
      .error ⟨"Exception", "OSRM connection error: timeout"⟩ := by
  constructor
  · have h := c3_error_channel_amended.2.1 "Error" (some "no segment") []
      DistanceUnits.miles (by decide)
    simpa using h
  · exact c3_error_channel_amended.2.2.2.1 8.3 (.networkError "timeout")
      DistanceUnits.miles _
      (c3_error_channel_amended.1 "timeout" DistanceUnits.miles)

/-- C9: `get_calculation_stats` reports the total row count, the average
`circuity_factor` rounded to 3 decimals and the average
`efficiency_percent` rounded to 2 decimals over the whole store, and on an
empty store returns the all-zero record rather than failing. -/
theorem c9_aggregate_stats (db : List CircuityCalculation) :
    (CacheService.get_calculation_stats db).total_calculations = db.length ∧
    (db = [] → CacheService.get_calculation_stats db = ⟨0, 0, 0⟩) ∧
    (db ≠ [] →
      CacheService.get_calculation_stats db =
        ⟨db.length,
         roundTo 3 ((db.map (·.circuity_factor)).sum / (db.length : ℚ)),
         roundTo 2 ((db.map (·.efficiency_percent)).sum / (db.length : ℚ))⟩) := by
  unfold CacheService.get_calculation_stats
  rcases eq_or_ne db [] with hdb | hdb
  · subst hdb
    exact ⟨rfl, fun _ => rfl, fun h => absurd rfl h⟩
  · have hlen : db.length ≠ 0 := fun h => hdb (List.length_eq_zero.mp h)
    rw [if_neg hlen]
    exact ⟨rfl, fun h => absurd h hdb, fun _ => rfl⟩

/-- Witness for C9 on the empty store and on a one-row store. -/
theorem c9_aggregate_stats_witness :
    CacheService.get_calculation_stats [] = ⟨0, 0, 0⟩ ∧
    CacheService.get_calculation_stats
        [⟨1, 2, none, 3, 4, none, 10, 8, 1.25, 80, DistanceUnits.miles, 7, 0⟩] =
      ⟨1, roundTo 3 (1.25 / 1), roundTo 2 (80 / 1)⟩ := by
  constructor
  · exact (c9_aggregate_stats []).2.1 rfl
  · have h := (c9_aggregate_stats
      [⟨1, 2, none, 3, 4, none, 10, 8, 1.25, 80, DistanceUnits.miles, 7, 0⟩]).2.2
      (by simp)
    simpa using h

/-- C5: a `sortBy` value outside {newest, oldest, circuity_asc,
circuity_desc} makes the history query fail as invalid input; in particular
its outcome differs from the query with `sortBy = "newest"`, which
succeeds. -/
theorem c5_invalid_sortby_rejected (db : List CircuityCalculation)
    (page limit : ℕ) (search : Option String) (sort_by : String)
    (h : sort_by ≠ "newest" ∧ sort_by ≠ "oldest" ∧
      sort_by ≠ "circuity_asc" ∧ sort_by ≠ "circuity_desc") :
    CacheService.get_calculation_history_paginated db page limit search
        sort_by =
      .error ⟨"ValueError", "Invalid sortBy value: " ++ sort_by⟩ ∧
    CacheService.get_calculation_history_paginated db page limit search
        sort_by ≠
      CacheService.get_calculation_history_paginated db page limit search
        "newest" := by
  unfold CacheService.get_calculation_history_paginated
  rw [if_pos h]
  refine ⟨rfl, ?_⟩
  rw [if_neg (fun hc => hc.1 rfl)]
  simp

/-- Witness for C5 at `sortBy = "bogus"`. -/
theorem c5_invalid_sortby_rejected_witness :
    CacheService.get_calculation_history_paginated [] 1 20 none "bogus" =
      .error ⟨"ValueError", "Invalid sortBy value: bogus"⟩ ∧
    CacheService.get_calculation_history_paginated [] 1 20 none "bogus" ≠
      CacheService.get_calculation_history_paginated [] 1 20 none "newest" :=
  c5_invalid_sortby_rejected [] 1 20 none "bogus"
    (by refine ⟨?_, ?_, ?_, ?_⟩ <;> decide)

/-- A cache miss means neither the forward nor the reverse query found a
row. -/
lemma find_none_of_cache_miss (db : List CircuityCalculation)
    (req : CircuityRequest)
    (h : CacheService.get_cached_calculation db req = none) :
    db.find? (CacheService.matches_forward req) = none ∧
    db.find? (CacheService.matches_reverse req) = none := by
  unfold CacheService.get_cached_calculation at h
  cases hf : db.find? (CacheService.matches_forward req) with
  | some c => rw [hf] at h; simp at h
  | none =>
    refine ⟨rfl, ?_⟩
    rw [hf] at h
    cases hr : db.find? (CacheService.matches_reverse req) with
    | some c => rw [hr] at h; simp at h
    | none => rfl

/-- Appending one row that reverse-matches a request onto a store where the
request currently misses makes the lookup hit exactly that row. -/
lemma get_cached_append_single (db : List CircuityCalculation)
    (req : CircuityRequest) (row : CircuityCalculation)
    (hf : db.find? (CacheService.matches_forward req) = none)
    (hr : db.find? (CacheService.matches_reverse req) = none)
    (hrow : CacheService.matches_reverse req row = true) :
    CacheService.get_cached_calculation (db ++ [row]) req =
      some { origin := req.origin
             destination := req.destination
             road_distance := row.road_distance
             straight_distance := row.straight_distance
             circuity_factor := row.circuity_factor
             efficiency_percent := row.efficiency_percent
             units := row.units
             calculation_time_ms := row.calculation_time_ms
             cached := true } := by
  unfold CacheService.get_cached_calculation
  by_cases hfw : CacheService.matches_forward req row = true
  · simp [List.find?_append, hf, List.find?_cons, hfw]
  · have hfw' : CacheService.matches_forward req row = false := by
      simpa using hfw
    simp [List.find?_append, hf, hr, List.find?_cons, hfw', hrow]

open CacheService in
/-- C1: after `save_calculation` stores a result for (A, B, units), a lookup
for (B, A) with the same units — one that previously missed — hits the
cache: `cached = true` and both distances equal the stored values. -/
theorem c1_cache_direction_symmetric (db : List CircuityCalculation)
    (request : CircuityRequest) (response : CircuityResponse) (now : ℕ)
    (hunits : response.units = request.units)
    (hmiss : CacheService.get_cached_calculation db
      ⟨request.destination, request.origin, request.units⟩ = none) :
    ∃ r, CacheService.get_cached_calculation
        (CacheService.save_calculation db request response now)
        ⟨request.destination, request.origin, request.units⟩ = some r ∧
      r.cached = true ∧
      r.road_distance = response.road_distance ∧
      r.straight_distance = response.straight_distance := by
  obtain ⟨hf, hr⟩ := find_none_of_cache_miss _ _ hmiss
  unfold CacheService.save_calculation
  refine ⟨_, get_cached_append_single db _ _ hf hr ?_, rfl, rfl, rfl⟩
  unfold CacheService.matches_reverse
  simp [hunits]

/-- Witness for C1: an empty store, a request from (1, 2) to (3, 4) in
miles, and a stored response; the reversed lookup hits. -/
theorem c1_cache_direction_symmetric_witness :
    (⟨⟨3, 4, none⟩, ⟨1, 2, none⟩, DistanceUnits.miles⟩ : CircuityRequest) =
      ⟨(⟨⟨1, 2, none⟩, ⟨3, 4, none⟩, DistanceUnits.miles⟩ :
          CircuityRequest).destination,
        (⟨⟨1, 2, none⟩, ⟨3, 4, none⟩, DistanceUnits.miles⟩ :
          CircuityRequest).origin, DistanceUnits.miles⟩ ∧
    ∃ r, CacheService.get_cached_calculation
        (CacheService.save_calculation []
          ⟨⟨1, 2, none⟩, ⟨3, 4, none⟩, DistanceUnits.miles⟩
          ⟨⟨1, 2, none⟩, ⟨3, 4, none⟩, 10.5, 8.3, 1.265, 79.05,
            DistanceUnits.miles, 7, false⟩ 0)
        ⟨⟨3, 4, none⟩, ⟨1, 2, none⟩, DistanceUnits.miles⟩ = some r ∧
      r.cached = true ∧ r.road_distance = 10.5 ∧ r.straight_distance = 8.3 :=
  ⟨rfl,
    c1_cache_direction_symmetric []
      ⟨⟨1, 2, none⟩, ⟨3, 4, none⟩, DistanceUnits.miles⟩
      ⟨⟨1, 2, none⟩, ⟨3, 4, none⟩, 10.5, 8.3, 1.265, 79.05,
        DistanceUnits.miles, 7, false⟩ 0 rfl rfl⟩

/-- C8: with both a forward row (origin A, destination B) and a reverse row
(origin B, destination A) in the store for the same units — the reverse row
even listed first — the lookup for (A, B) returns the forward row, because
the reverse-direction query only runs when the forward query finds
nothing. -/
theorem c8_forward_match_precedence (A B : Location) (u : DistanceUnits)
    (r1 s1 cf1 e1 : ℚ) (t1 : ℤ) (n1 : ℕ)
    (r2 s2 cf2 e2 : ℚ) (t2 : ℤ) (n2 : ℕ)
    (hne : CacheService.round6 A.lat ≠ CacheService.round6 B.lat ∨
      CacheService.round6 A.lng ≠ CacheService.round6 B.lng) :
    CacheService.get_cached_calculation
        [{ origin_lat := CacheService.round6 B.lat
           origin_lng := CacheService.round6 B.lng
           origin_name := B.name
           destination_lat := CacheService.round6 A.lat
           destination_lng := CacheService.round6 A.lng
           destination_name := A.name
           road_distance := r2
           straight_distance := s2
           circuity_factor := cf2
           efficiency_percent := e2
           units := u
           calculation_time_ms := t2
           created_at := n2 },
         { origin_lat := CacheService.round6 A.lat
           origin_lng := CacheService.round6 A.lng
           origin_name := A.name
           destination_lat := CacheService.round6 B.lat
           destination_lng := CacheService.round6 B.lng
           destination_name := B.name
           road_distance := r1
           straight_distance := s1
           circuity_factor := cf1
           efficiency_percent := e1
           units := u
           calculation_time_ms := t1
           created_at := n1 }]
        ⟨A, B, u⟩ =
      some { origin := A
             destination := B
             road_distance := r1
             straight_distance := s1
             circuity_factor := cf1
             efficiency_percent := e1
             units := u
             calculation_time_ms := t1
             cached := true } := by
  have hrev : CacheService.matches_forward ⟨A, B, u⟩
      { origin_lat := CacheService.round6 B.lat
        origin_lng := CacheService.round6 B.lng
        origin_name := B.name
        destination_lat := CacheService.round6 A.lat
        destination_lng := CacheService.round6 A.lng
        destination_name := A.name
        road_distance := r2
        straight_distance := s2
        circuity_factor := cf2
        efficiency_percent := e2
        units := u
        calculation_time_ms := t2
        created_at := n2 } = false := by
    unfold CacheService.matches_forward
    simp only [decide_eq_false_iff_not]
    rintro ⟨h1, h2, -⟩
    rcases hne with hne | hne
    · exact hne h1.symm
    · exact hne h2.symm
  have hfwd : CacheService.matches_forward ⟨A, B, u⟩
      { origin_lat := CacheService.round6 A.lat
        origin_lng := CacheService.round6 A.lng
        origin_name := A.name
        destination_lat := CacheService.round6 B.lat
        destination_lng := CacheService.round6 B.lng
        destination_name := B.name
        road_distance := r1
        straight_distance := s1
        circuity_factor := cf1
        efficiency_percent := e1
        units := u
        calculation_time_ms := t1
        created_at := n1 } = true := by
    unfold CacheService.matches_forward
    simp
  unfold CacheService.get_cached_calculation
  simp [List.find?_cons, hrev, hfwd]

/-- Witness for C8: concrete coordinates (1, 2) and (3, 4), a reverse row
listed first, and the forward row's values returned. -/
theorem c8_forward_match_precedence_witness :
    CacheService.round6 ((⟨1, 2, none⟩ : Location).lat) ≠
      CacheService.round6 ((⟨3, 4, none⟩ : Location).lat) ∧
    CacheService.get_cached_calculation
        [{ origin_lat := CacheService.round6 (3 : ℚ)
           origin_lng := CacheService.round6 (4 : ℚ)
           origin_name := none
           destination_lat := CacheService.round6 (1 : ℚ)
           destination_lng := CacheService.round6 (2 : ℚ)
           destination_name := none
           road_distance := 9
           straight_distance := 8
           circuity_factor := 1.125
           efficiency_percent := 88.89
           units := DistanceUnits.miles
           calculation_time_ms := 5
           created_at := 2 },
         { origin_lat := CacheService.round6 (1 : ℚ)
           origin_lng := CacheService.round6 (2 : ℚ)
           origin_name := none
           destination_lat := CacheService.round6 (3 : ℚ)
           destination_lng := CacheService.round6 (4 : ℚ)
           destination_name := none
           road_distance := 10.5
           straight_distance := 8.3
           circuity_factor := 1.265
           efficiency_percent := 79.05
           units := DistanceUnits.miles
           calculation_time_ms := 7
           created_at := 1 }]
        ⟨⟨1, 2, none⟩, ⟨3, 4, none⟩, DistanceUnits.miles⟩ =
      some { origin := ⟨1, 2, none⟩
             destination := ⟨3, 4, none⟩
             road_distance := 10.5
             straight_distance := 8.3
             circuity_factor := 1.265
             efficiency_percent := 79.05
             units := DistanceUnits.miles
             calculation_time_ms := 7
             cached := true } := by
  have hne : CacheService.round6 ((⟨1, 2, none⟩ : Location).lat) ≠
      CacheService.round6 ((⟨3, 4, none⟩ : Location).lat) := by
    norm_num [CacheService.round6, roundTo, round_eq]
  exact ⟨hne, c8_forward_match_precedence ⟨1, 2, none⟩ ⟨3, 4, none⟩
    DistanceUnits.miles 10.5 8.3 1.265 79.05 7 1 9 8 1.125 88.89 5 2
    (Or.inl hne)⟩

/-- C10: any cache hit echoes the requesting call's own origin and
destination, sets `cached = true`, and copies the numeric fields, units and
timing from a stored row. -/
theorem c10_hit_echoes_request_endpoints (db : List CircuityCalculation)
    (request : CircuityRequest) (r : CircuityResponse)
    (h : CacheService.get_cached_calculation db request = some r) :
    r.origin = request.origin ∧ r.destination = request.destination ∧
    r.cached = true ∧
    ∃ c ∈ db, r.road_distance = c.road_distance ∧
      r.straight_distance = c.straight_distance ∧
      r.circuity_factor = c.circuity_factor ∧
      r.efficiency_percent = c.efficiency_percent ∧
      r.units = c.units ∧
      r.calculation_time_ms = c.calculation_time_ms := by
  unfold CacheService.get_cached_calculation at h
  cases hf : db.find? (CacheService.matches_forward request) with
  | some c =>
    rw [hf] at h
    simp only [Option.map_some'] at h
    obtain rfl := (Option.some.injEq _ _).mp h
    exact ⟨rfl, rfl, rfl, c, List.mem_of_find?_eq_some hf,
      rfl, rfl, rfl, rfl, rfl, rfl⟩
  | none =>
    rw [hf] at h
    cases hr : db.find? (CacheService.matches_reverse request) with
    | some c =>
      rw [hr] at h
      simp only [Option.map_some'] at h
      obtain rfl := (Option.some.injEq _ _).mp h
      exact ⟨rfl, rfl, rfl, c, List.mem_of_find?_eq_some hr,
        rfl, rfl, rfl, rfl, rfl, rfl⟩
    | none => rw [hr] at h; simp at h

/-- Witness for C10: a one-row store hit in the reverse direction still
echoes the requesting origin (3, 4) and destination (1, 2). -/
theorem c10_hit_echoes_request_endpoints_witness :
    CacheService.get_cached_calculation
        [{ origin_lat := 1
           origin_lng := 2
           origin_name := none
           destination_lat := 3
           destination_lng := 4
           destination_name := none
           road_distance := 10.5
           straight_distance := 8.3
           circuity_factor := 1.265
           efficiency_percent := 79.05
           units := DistanceUnits.miles
           calculation_time_ms := 7
           created_at := 1 }]
        ⟨⟨3, 4, none⟩, ⟨1, 2, none⟩, DistanceUnits.miles⟩ =
      some { origin := ⟨3, 4, none⟩
             destination := ⟨1, 2, none⟩
             road_distance := 10.5
             straight_distance := 8.3
             circuity_factor := 1.265
             efficiency_percent := 79.05
             units := DistanceUnits.miles
             calculation_time_ms := 7
             cached := true } ∧
    ({ origin := ⟨3, 4, none⟩
       destination := ⟨1, 2, none⟩
       road_distance := 10.5
       straight_distance := 8.3
       circuity_factor := 1.265
       efficiency_percent := 79.05
       units := DistanceUnits.miles
       calculation_time_ms := 7
       cached := true } : CircuityResponse).origin = ⟨3, 4, none⟩ := by
  have h : CacheService.get_cached_calculation
      [{ origin_lat := 1
         origin_lng := 2
         origin_name := none
         destination_lat := 3
         destination_lng := 4
         destination_name := none
         road_distance := 10.5
         straight_distance := 8.3
         circuity_factor := 1.265
         efficiency_percent := 79.05
         units := DistanceUnits.miles
         calculation_time_ms := 7
         created_at := 1 }]
      ⟨⟨3, 4, none⟩, ⟨1, 2, none⟩, DistanceUnits.miles⟩ =
    some { origin := ⟨3, 4, none⟩
           destination := ⟨1, 2, none⟩
           road_distance := 10.5
           straight_distance := 8.3
           circuity_factor := 1.265
           efficiency_percent := 79.05
           units := DistanceUnits.miles
           calculation_time_ms := 7
           cached := true } := by
    unfold CacheService.get_cached_calculation
    norm_num [CacheService.matches_forward, CacheService.matches_reverse,
      CacheService.round6, roundTo, round_eq, List.find?_cons]
  exact ⟨h, (c10_hit_echoes_request_endpoints _ _ _ h).1⟩

/-- C7: the Haversine straight-line distance is symmetric in its endpoints:
swapping origin and destination leaves the result unchanged for either
units value. -/
theorem c7_straight_distance_symmetric (lat1 lng1 lat2 lng2 : ℝ)
    (u : DistanceUnits) :
    DistanceService.calculate_straight_distance lat1 lng1 lat2 lng2 u =
      DistanceService.calculate_straight_distance lat2 lng2 lat1 lng1 u := by
  have hsin : ∀ p q : ℝ,
      Real.sin (DistanceService.radians (p - q) / 2) =
        -Real.sin (DistanceService.radians (q - p) / 2) := by
    intro p q
    have h : DistanceService.radians (p - q) / 2 =
        -(DistanceService.radians (q - p) / 2) := by
      unfold DistanceService.radians; ring
    rw [h, Real.sin_neg]
  have ha :
      Real.sin (DistanceService.radians (lat2 - lat1) / 2) *
          Real.sin (DistanceService.radians (lat2 - lat1) / 2) +
        Real.cos (DistanceService.radians lat1) *
            Real.cos (DistanceService.radians lat2) *
          Real.sin (DistanceService.radians (lng2 - lng1) / 2) *
          Real.sin (DistanceService.radians (lng2 - lng1) / 2) =
      Real.sin (DistanceService.radians (lat1 - lat2) / 2) *
          Real.sin (DistanceService.radians (lat1 - lat2) / 2) +
        Real.cos (DistanceService.radians lat2) *
            Real.cos (DistanceService.radians lat1) *
          Real.sin (DistanceService.radians (lng1 - lng2) / 2) *
          Real.sin (DistanceService.radians (lng1 - lng2) / 2) := by
    rw [hsin lat2 lat1, hsin lng2 lng1]; ring
  simp only [DistanceService.calculate_straight_distance]
  rw [ha]
